import Mathlib

/-!
# Trade-Sim-Bot: the `/interactions` handler of `src/app.js`

A shallow embedding of the webhook handler registered by
`app.post('/interactions', ...)` together with the process-wide store
`const activeGames = {}` it reads and writes.

Modelling decisions (each one is visible in a definition below):

* JavaScript strings are lists of characters (`Str`).  `startsWith` and
  `replace` follow `String.prototype.startsWith` and
  `String.prototype.replace` with a string pattern (first occurrence only).
* `activeGames` is a plain object literal, so a property read
  `activeGames[key]` consults the object's own properties and then its
  prototype chain (`Object.prototype`), an assignment to the key `__proto__`
  goes to the accessor inherited from `Object.prototype`, and `delete` only
  removes own properties.  `Registry` records exactly the part of the heap
  these operations can observe.
* The request body is the already parsed, well-formed JSON body of one
  interaction; every field the handler reads is a string (the interaction
  `type` is a number).
* One event is handled from start to end without interleaving with another.
* `getShuffledOptions`, `getResult` (`game.js`), `getRandomEmoji`,
  `DiscordRequest` (`utils.js`) and `process.env.APP_ID` are not part of
  `app.js`; they are parameters collected in `Env`.  `DiscordRequest` may
  throw, which `Env.requestFails` decides.
* The handler's observable behaviour is the list of calls it makes, in
  order: `res.send`, `DiscordRequest`, `console.error`, and an uncaught
  `TypeError` that ends the invocation.
-/

namespace TradeSimBot

/-- JavaScript string. -/
abbrev Str := List Char

/-- `s.startsWith(p)`. -/
def startsWith (s p : Str) : Bool := p.isPrefixOf s

/-- `s.replace(pat, rep)` for a string pattern: the first occurrence of `pat`
in `s`, scanning from the left, is replaced by `rep`; without an occurrence
`s` is returned.  (The only replacement text in `app.js` is the empty string,
so replacement patterns such as `$&` never arise.) -/
def replace (pat rep : Str) : Str → Str
  | [] => if startsWith [] pat then rep else []
  | c :: cs =>
    if startsWith (c :: cs) pat then rep ++ (c :: cs).drop pat.length
    else c :: replace pat rep cs

/-! ## Constants of the `discord-interactions` package -/

/-- `InteractionType.PING`. -/
def InteractionType.PING : Nat := 1
/-- `InteractionType.APPLICATION_COMMAND`. -/
def InteractionType.APPLICATION_COMMAND : Nat := 2
/-- `InteractionType.MESSAGE_COMPONENT`. -/
def InteractionType.MESSAGE_COMPONENT : Nat := 3
/-- `ButtonStyleTypes.PRIMARY`. -/
def ButtonStyleTypes.PRIMARY : Nat := 1
/-- `ButtonStyleTypes.DANGER`. -/
def ButtonStyleTypes.DANGER : Nat := 4

/-! ## Control identifiers used by the dispatcher -/

/-- The literal `'accept_button_'`. -/
def ACCEPT_BUTTON : Str := "accept_button_".toList
/-- The literal `'select_choice_'`. -/
def SELECT_CHOICE : Str := "select_choice_".toList
/-- The literal `'start_sim'`. -/
def START_SIM : Str := "start_sim".toList
/-- The property name `__proto__`. -/
def PROTO : Str := "__proto__".toList

/-! ## Objects stored in the registry -/

/-- The two object shapes the handler creates and stores in `activeGames`. -/
inductive Session
  /-- `{ players: {}, stockPrice: 0, waitingForPrice: true }` (command `test`). -/
  | simulation
  /-- `{ id, objectName }` (command `sim`, and the responder passed to
  `getResult`); `waitingForPrice` records whether the property
  `waitingForPrice: true` has been added to the object by `start_sim`. -/
  | challenge (id objectName : Str) (waitingForPrice : Bool)
  deriving DecidableEq, Repr

/-- What a property read `activeGames[key]` can evaluate to. -/
inductive Value
  | undefined
  /-- A session object. -/
  | session (s : Session)
  /-- The `players` object of a simulation session. -/
  | players
  | number (n : Nat)
  | boolean (b : Bool)
  | string (s : Str)
  /-- The function stored under `name` in `Object.prototype`. -/
  | builtin (name : Str)
  /-- The object `Object.prototype` itself. -/
  | objectPrototype
  deriving DecidableEq, Repr

/-- JavaScript truthiness (`if (v)`, `!v`). -/
def truthy : Value → Bool
  | .undefined => false
  | .session _ => true
  | .players => true
  | .number n => n != 0
  | .boolean b => b
  | .string s => s != []
  | .builtin _ => true
  | .objectPrototype => true

/-- Names of the function-valued properties of `Object.prototype` (Node.js). -/
def objectPrototypeFunctions : List Str :=
  ["constructor", "__defineGetter__", "__defineSetter__", "hasOwnProperty",
   "__lookupGetter__", "__lookupSetter__", "isPrototypeOf",
   "propertyIsEnumerable", "toString", "valueOf", "toLocaleString"].map String.toList

/-- Own property `k` of a session object. -/
def Session.ownProp : Session → Str → Option Value
  | .simulation, k =>
    if k = "players".toList then some .players
    else if k = "stockPrice".toList then some (.number 0)
    else if k = "waitingForPrice".toList then some (.boolean true)
    else none
  | .challenge id objectName w, k =>
    if k = "id".toList then some (.string id)
    else if k = "objectName".toList then some (.string objectName)
    else if k = "waitingForPrice".toList ∧ w = true then some (.boolean true)
    else none

/-- The session after `game.waitingForPrice = true`. -/
def Session.setWaiting : Session → Session
  | .simulation => .simulation
  | .challenge id objectName _ => .challenge id objectName true

/-- The store `const activeGames = {}`: its own properties, the object its
prototype link points to when that is no longer `Object.prototype`, and
whether `Object.prototype` has acquired `waitingForPrice: true`. -/
structure Registry where
  /-- Own properties of `activeGames`; every value the handler stores is a session. -/
  own : Str → Option Session
  /-- The session installed as prototype of `activeGames` by an assignment to
  `activeGames['__proto__']`; `none` while the prototype is `Object.prototype`. -/
  proto : Option Session
  /-- Whether `Object.prototype.waitingForPrice` has been set. -/
  polluted : Bool

/-- The registry of a freshly started process. -/
def Registry.empty : Registry := ⟨fun _ => none, none, false⟩

/-- Property lookup along the prototype chain of `activeGames`, own
properties excluded: first the installed prototype session (if any), then
`Object.prototype`. -/
def Registry.inherited (R : Registry) (k : Str) : Value :=
  match R.proto.bind (fun p => p.ownProp k) with
  | some v => v
  | none =>
    if k = PROTO then
      match R.proto with
      | some p => .session p
      | none => .objectPrototype
    else if k ∈ objectPrototypeFunctions then .builtin k
    else if k = "waitingForPrice".toList ∧ R.polluted = true then .boolean true
    else .undefined

/-- `activeGames[k]` (read). -/
def Registry.get (R : Registry) (k : Str) : Value :=
  match R.own k with
  | some s => .session s
  | none => R.inherited k

/-- `activeGames[k] = s`: overwrites or creates an own property, except that
without an own property `__proto__` the assignment reaches the `__proto__`
setter of `Object.prototype`, which makes `s` the prototype of `activeGames`. -/
def Registry.set (R : Registry) (k : Str) (s : Session) : Registry :=
  if k = PROTO ∧ R.own k = none then { R with proto := some s }
  else { R with own := fun j => if j = k then some s else R.own j }

/-- `delete activeGames[k]`: removes an own property, nothing else. -/
def Registry.delete (R : Registry) (k : Str) : Registry :=
  { R with own := fun j => if j = k then none else R.own j }

/-- `game.waitingForPrice = true` for `game = activeGames[k]` (truthy): the
write lands on the object the read produced.  On a primitive it throws a
`TypeError` (module code is strict), which is `none`.  Writes on the
`players` object and on a built-in function change no property that a read of
`activeGames` returns. -/
def Registry.assignWaiting (R : Registry) (k : Str) : Option Registry :=
  match R.own k with
  | some s => some { R with own := fun j => if j = k then some s.setWaiting else R.own j }
  | none =>
    match R.inherited k with
    | .session p => some { R with proto := some p.setWaiting }
    | .objectPrototype => some { R with polluted := true }
    | .players => some R
    | .builtin _ => some R
    | .undefined => none
    | .number _ => none
    | .boolean _ => none
    | .string _ => none

/-! ## Requests, responses and effects -/

/-- The fields of `req.body` the handler reads. -/
structure Request where
  /-- `req.body.type`. -/
  type : Nat
  /-- `req.body.id`. -/
  id : Str
  /-- `req.body.data.name`. -/
  name : Str
  /-- `req.body.data.options[0].value`. -/
  option0 : Str
  /-- `req.body.data.custom_id`. -/
  customId : Str
  /-- `req.body.data.values[0]`. -/
  value0 : Str
  /-- `req.body.member.user.id`. -/
  userId : Str
  /-- `req.body.token`. -/
  token : Str
  /-- `req.body.message.id`. -/
  messageId : Str

/-- One entry of the list returned by `getShuffledOptions()`. -/
structure SelectOption where
  label : Str
  value : Str
  description : Str
  deriving DecidableEq, Repr

/-- Interactive controls. -/
inductive Control
  /-- A button (`type: 2` / `MessageComponentTypes.BUTTON`). -/
  | button (style : Nat) (label customId : Str)
  /-- A string select (`MessageComponentTypes.STRING_SELECT`). -/
  | stringSelect (customId : Str) (options : List SelectOption)
  deriving DecidableEq, Repr

/-- Entries of a message's `components` array. -/
inductive Component
  /-- An action row (`MessageComponentTypes.ACTION_ROW`) with its controls. -/
  | actionRow (components : List Control)
  /-- A control placed directly in the array. -/
  | control (c : Control)
  deriving DecidableEq, Repr

/-- The `data` of a `CHANNEL_MESSAGE_WITH_SOURCE` response; `ephemeral` is
`flags: InteractionResponseFlags.EPHEMERAL`. -/
structure Message where
  content : Str
  ephemeral : Bool
  components : List Component
  deriving DecidableEq, Repr

/-- Payloads passed to `res.send`. -/
inductive Response
  /-- `{ type: InteractionResponseType.PONG }`. -/
  | pong
  /-- `{ type: InteractionResponseType.CHANNEL_MESSAGE_WITH_SOURCE, data }`. -/
  | channelMessage (data : Message)
  deriving DecidableEq, Repr

/-- The `method` (and body) of a `DiscordRequest` call. -/
inductive Method
  | DELETE
  /-- `PATCH` with body `{ content, components: [] }`. -/
  | PATCH (content : Str)
  deriving DecidableEq, Repr

/-- Calls made by the handler, in program order. -/
inductive Effect
  /-- A call `res.send(payload)`. -/
  | send (payload : Response)
  /-- A call `DiscordRequest(endpoint, options)`. -/
  | discordRequest (endpoint : Str) (method : Method)
  /-- A call `console.error(...)` from a `catch` block. -/
  | consoleError
  /-- An uncaught `TypeError` ending the invocation. -/
  | typeError
  deriving DecidableEq, Repr

/-- Everything the handler obtains from outside `app.js`. -/
structure Env where
  /-- `process.env.APP_ID`. -/
  appId : Str
  /-- The list returned by `getShuffledOptions()`. -/
  shuffledOptions : List SelectOption
  /-- The string returned by `getRandomEmoji()`. -/
  randomEmoji : Str
  /-- The function `getResult(p1, p2)` of `game.js`. -/
  getResult : Value → Value → Str
  /-- Whether the `DiscordRequest` call of this invocation throws. -/
  requestFails : Bool

/-! ## Payloads built by the handler -/

/-- Response of the `test` command. -/
def testResponse : Response :=
  .channelMessage
    { content := "Click to start the simulation.".toList
      ephemeral := false
      components := [.actionRow [.button 1 "Start Sim".toList "start_sim".toList]] }

/-- Response of the `sim` command. -/
def simResponse (req : Request) : Response :=
  .channelMessage
    { content := "Rock papers scissors challenge from <@".toList ++ req.userId ++ ">".toList
      ephemeral := false
      components :=
        [.actionRow
          [.button ButtonStyleTypes.PRIMARY "Accept".toList ("accept_button_".toList ++ req.id)]] }

/-- Response to an `accept_button_` click. -/
def acceptResponse (env : Env) (gameId : Str) : Response :=
  .channelMessage
    { content := "What is your object of choice?".toList
      ephemeral := true
      components :=
        [.actionRow [.stringSelect ("select_choice_".toList ++ gameId) env.shuffledOptions]] }

/-- Response carrying the result text. -/
def resultResponse (resultStr : Str) : Response :=
  .channelMessage { content := resultStr, ephemeral := false, components := [] }

/-- First payload sent for a `start_sim` click. -/
def buySellResponse (gameId : Str) : Response :=
  .channelMessage
    { content := "Do you want to buy or sell?".toList
      ephemeral := true
      components :=
        [.actionRow
          [.button ButtonStyleTypes.PRIMARY "Buy".toList ("buy_".toList ++ gameId),
           .button ButtonStyleTypes.DANGER "Sell".toList ("sell_".toList ++ gameId)]] }

/-- Payload of the `!game` branch of `start_sim`. -/
def noActiveResponse : Response :=
  .channelMessage
    { content := "No active simulation found.".toList, ephemeral := true, components := [] }

/-- Payload of the last `res.send` of `start_sim`. -/
def startedResponse : Response :=
  .channelMessage
    { content := "Simulation started. Please enter the stock price.".toList
      ephemeral := false
      components := [.control (.button 1 "Join".toList "button1".toList)] }

/-- The follow-up endpoint
`webhooks/${process.env.APP_ID}/${req.body.token}/messages/${req.body.message.id}`. -/
def endpoint (env : Env) (req : Request) : Str :=
  "webhooks/".toList ++ env.appId ++ "/".toList ++ req.token ++ "/messages/".toList
    ++ req.messageId

/-- Calls made by `try { await res.send(p); await DiscordRequest(e, m) } catch (err)
{ console.error(...) }`: the response, the follow-up, and the log entry when
the follow-up throws. -/
def sendThenRequest (env : Env) (p : Response) (e : Str) (m : Method) : List Effect :=
  [.send p, .discordRequest e m] ++ (if env.requestFails then [.consoleError] else [])

/-! ## The handler -/

/-- The `APPLICATION_COMMAND` block; `some` when it returns from the handler. -/
def commandBlock (R : Registry) (req : Request) : Option (Registry × List Effect) :=
  if req.name = "test".toList then
    some (R.set req.userId .simulation, [.send testResponse])
  else if req.name = "sim".toList ∧ req.id ≠ [] then
    some (R.set req.id (.challenge req.userId req.option0 false), [.send (simResponse req)])
  else none

/-- The first `MESSAGE_COMPONENT` block (`accept_button_` / `select_choice_`). -/
def componentBlock (env : Env) (R : Registry) (req : Request) : Registry × List Effect :=
  if startsWith req.customId ACCEPT_BUTTON then
    let gameId := replace ACCEPT_BUTTON [] req.customId
    (R, sendThenRequest env (acceptResponse env gameId) (endpoint env req) .DELETE)
  else if startsWith req.customId SELECT_CHOICE then
    let gameId := replace SELECT_CHOICE [] req.customId
    if truthy (R.get gameId) then
      let resultStr :=
        env.getResult (R.get gameId) (.session (.challenge req.userId req.value0 false))
      (R.delete gameId,
        sendThenRequest env (resultResponse resultStr) (endpoint env req)
          (.PATCH ("Nice choice ".toList ++ env.randomEmoji)))
    else (R, [])
  else (R, [])

/-- The second `MESSAGE_COMPONENT` block (`start_sim`). -/
def startSimBlock (env : Env) (R : Registry) (req : Request) : Registry × List Effect :=
  if startsWith req.customId START_SIM then
    let gameId := replace START_SIM [] req.customId
    let first := sendThenRequest env (buySellResponse gameId) (endpoint env req) .DELETE
    if truthy (R.get req.userId) then
      match R.assignWaiting req.userId with
      | some R' => (R', first ++ [.send startedResponse])
      | none => (R, first ++ [.typeError])
    else (R, first ++ [.send noActiveResponse])
  else (R, [])

/-- The function passed to `app.post('/interactions', ...)`: the registry
after the invocation and the calls made, in order. -/
def handler (env : Env) (R : Registry) (req : Request) : Registry × List Effect :=
  if req.type = InteractionType.PING then (R, [.send .pong])
  else
    match (if req.type = InteractionType.APPLICATION_COMMAND then commandBlock R req
           else none) with
    | some out => out
    | none =>
      let out1 :=
        if req.type = InteractionType.MESSAGE_COMPONENT then componentBlock env R req
        else (R, [])
      let out2 :=
        if req.type = InteractionType.MESSAGE_COMPONENT then startSimBlock env out1.1 req
        else (out1.1, [])
      (out2.1, out1.2 ++ out2.2)

/-! ## Observations on a trace -/

/-- The payloads passed to `res.send`, in order. -/
def responses : List Effect → List Response
  | [] => []
  | .send p :: t => p :: responses t
  | _ :: t => responses t

/-- Whether a trace starts with its only `res.send`, so that every
`DiscordRequest` comes after it. -/
def ackedOnceFirst : List Effect → Bool
  | .send _ :: t => (responses t).isEmpty
  | _ => false

/-! ## Concrete requests and environments used in examples -/

/-- An environment in which `getResult` returns a fixed text and the follow-up
request succeeds. -/
def exampleEnv : Env :=
  { appId := "app".toList
    shuffledOptions := []
    randomEmoji := ":)".toList
    getResult := fun _ _ => "result".toList
    requestFails := false }

/-- A component event with the given `custom_id`, user and selected value. -/
def componentRequest (customId userId value0 : Str) : Request :=
  { type := InteractionType.MESSAGE_COMPONENT, id := "900".toList, name := []
    option0 := [], customId := customId, value0 := value0, userId := userId
    token := "tok".toList, messageId := "77".toList }

/-- A command event with the given name, event id, user and first option value. -/
def commandRequest (name id userId option0 : Str) : Request :=
  { type := InteractionType.APPLICATION_COMMAND, id := id, name := name
    option0 := option0, customId := [], value0 := [], userId := userId
    token := "tok".toList, messageId := "77".toList }

/-- The registry reached from the empty one by a `sim` command whose event id
is `__proto__`. -/
def protoRegistry : Registry :=
  (handler exampleEnv Registry.empty
    (commandRequest "sim".toList "__proto__".toList "u1".toList "rock".toList)).1

/-- The registry reached from the empty one by a `sim` command with event id
`123` from user `u1` choosing `rock`. -/
def challengeRegistry : Registry :=
  (handler exampleEnv Registry.empty
    (commandRequest "sim".toList "123".toList "u1".toList "rock".toList)).1

/-- The registry reached from the empty one by a `test` command from user `u1`. -/
def simulationRegistry : Registry :=
  (handler exampleEnv Registry.empty
    (commandRequest "test".toList "5".toList "u1".toList [])).1

/-- The `accept_button_123` event of user `u2`. -/
def acceptRequest : Request :=
  componentRequest "accept_button_123".toList "u2".toList []

/-- The `start_sim` event of user `u1`. -/
def startSimRequest : Request :=
  componentRequest "start_sim".toList "u1".toList []

/-- The `sim` command with event id `__proto__` from user `u1` choosing `rock`. -/
def protoSimRequest : Request :=
  commandRequest "sim".toList "__proto__".toList "u1".toList "rock".toList

/-- The `accept_button___proto__` event of user `u2`. -/
def protoAcceptRequest : Request :=
  componentRequest "accept_button___proto__".toList "u2".toList []

/-- The `select_choice___proto__` event of user `u2` choosing `scissors`. -/
def protoSelectRequest : Request :=
  componentRequest "select_choice___proto__".toList "u2".toList "scissors".toList

/-- The message carrying the fixed result text of `exampleEnv`. -/
def exampleResultMessage : Response :=
  .channelMessage { content := "result".toList, ephemeral := false, components := [] }

/-! ## Strings -/

theorem startsWith_append (p k : Str) : startsWith (p ++ k) p = true := by
  simp [startsWith]

theorem startsWith_iff (c p : Str) : startsWith c p = true ↔ ∃ t, c = p ++ t := by
  constructor
  · intro h
    induction p generalizing c with
    | nil => exact ⟨c, rfl⟩
    | cons a p ih =>
      cases c with
      | nil => simp [startsWith, List.isPrefixOf] at h
      | cons b c =>
        simp only [startsWith, List.isPrefixOf, Bool.and_eq_true, beq_iff_eq] at h
        obtain ⟨t, ht⟩ := ih c h.2
        exact ⟨t, by rw [h.1, ht]; rfl⟩
  · rintro ⟨t, rfl⟩
    exact startsWith_append p t

theorem replace_append (p r k : Str) : replace p r (p ++ k) = r ++ k := by
  cases h : p ++ k with
  | nil =>
    simp at h
    simp [replace, startsWith, h.1, h.2]
  | cons c cs =>
    have hs : startsWith (c :: cs) p = true := by
      rw [← h]; exact startsWith_append p k
    rw [replace, if_pos hs, ← h]
    simp

theorem replace_append_nil (p k : Str) : replace p [] (p ++ k) = k := by
  simpa using replace_append p [] k

theorem accept_not_start (k : Str) : startsWith (ACCEPT_BUTTON ++ k) START_SIM = false :=
  rfl

theorem select_not_accept (k : Str) : startsWith (SELECT_CHOICE ++ k) ACCEPT_BUTTON = false :=
  rfl

theorem select_not_start (k : Str) : startsWith (SELECT_CHOICE ++ k) START_SIM = false :=
  rfl

/-! ## Traces -/

theorem responses_sendThenRequest (env : Env) (p : Response) (e : Str) (m : Method) :
    responses (sendThenRequest env p e m) = [p] := by
  cases h : env.requestFails <;> simp [sendThenRequest, responses, h]

/-! ## Registry reads after writes -/

theorem inherited_ne_session (R : Registry) (k : Str) (hk : k ≠ PROTO) (s : Session) :
    R.inherited k ≠ .session s := by
  unfold Registry.inherited
  cases hp : R.proto with
  | none =>
    simp only [Option.bind, if_neg hk]
    split_ifs <;> simp
  | some p =>
    cases p with
    | simulation =>
      simp only [Option.bind, Session.ownProp]
      split_ifs <;> simp
    | challenge i o w =>
      simp only [Option.bind, Session.ownProp]
      split_ifs <;> simp

theorem get_delete_self (R : Registry) (k : Str) : (R.delete k).get k = R.inherited k := by
  simp [Registry.get, Registry.delete, Registry.inherited]

theorem get_delete_other (R : Registry) (k j : Str) (h : j ≠ k) :
    (R.delete k).get j = R.get j := by
  simp [Registry.get, Registry.delete, Registry.inherited, h]

theorem get_set_self (R : Registry) (k : Str) (s : Session) (hk : k ≠ PROTO) :
    (R.set k s).get k = .session s := by
  simp [Registry.get, Registry.set, hk]

theorem get_set_other (R : Registry) (k j : Str) (s : Session) (hk : k ≠ PROTO) (h : j ≠ k) :
    (R.set k s).get j = R.get j := by
  simp [Registry.get, Registry.set, Registry.inherited, hk, h]

/-! ## The handler on each kind of event -/

theorem component_not_ping (req : Request)
    (hty : req.type = InteractionType.MESSAGE_COMPONENT) :
    ¬ req.type = InteractionType.PING := by
  rw [hty]; decide

theorem component_not_command (req : Request)
    (hty : req.type = InteractionType.MESSAGE_COMPONENT) :
    ¬ req.type = InteractionType.APPLICATION_COMMAND := by
  rw [hty]; decide

theorem command_not_ping (req : Request)
    (hty : req.type = InteractionType.APPLICATION_COMMAND) :
    ¬ req.type = InteractionType.PING := by
  rw [hty]; decide

theorem handler_component (env : Env) (R : Registry) (req : Request)
    (hty : req.type = InteractionType.MESSAGE_COMPONENT) :
    handler env R req =
      ((startSimBlock env (componentBlock env R req).1 req).1,
        (componentBlock env R req).2 ++ (startSimBlock env (componentBlock env R req).1 req).2) := by
  simp only [handler, if_neg (component_not_ping req hty),
    if_neg (component_not_command req hty), if_pos hty]

theorem startSimBlock_skip (env : Env) (R : Registry) (req : Request)
    (h : startsWith req.customId START_SIM = false) : startSimBlock env R req = (R, []) := by
  unfold startSimBlock
  rw [h]
  simp

theorem componentBlock_skip (env : Env) (R : Registry) (req : Request)
    (ha : startsWith req.customId ACCEPT_BUTTON = false)
    (hs : startsWith req.customId SELECT_CHOICE = false) :
    componentBlock env R req = (R, []) := by
  unfold componentBlock
  rw [ha, hs]
  simp

theorem componentBlock_accept (env : Env) (R : Registry) (req : Request) (k : Str)
    (hid : req.customId = ACCEPT_BUTTON ++ k) :
    componentBlock env R req =
      (R, sendThenRequest env (acceptResponse env k) (endpoint env req) .DELETE) := by
  unfold componentBlock
  rw [hid, startsWith_append, replace_append_nil]
  simp

theorem componentBlock_select (env : Env) (R : Registry) (req : Request) (k : Str)
    (hid : req.customId = SELECT_CHOICE ++ k) :
    componentBlock env R req =
      if truthy (R.get k) then
        (R.delete k,
          sendThenRequest env
            (resultResponse
              (env.getResult (R.get k) (.session (.challenge req.userId req.value0 false))))
            (endpoint env req) (.PATCH ("Nice choice ".toList ++ env.randomEmoji)))
      else (R, []) := by
  unfold componentBlock
  rw [hid, select_not_accept, startsWith_append, replace_append_nil]
  simp

theorem handler_select (env : Env) (R : Registry) (req : Request) (k : Str)
    (hty : req.type = InteractionType.MESSAGE_COMPONENT)
    (hid : req.customId = SELECT_CHOICE ++ k) :
    handler env R req =
      if truthy (R.get k) then
        (R.delete k,
          sendThenRequest env
            (resultResponse
              (env.getResult (R.get k) (.session (.challenge req.userId req.value0 false))))
            (endpoint env req) (.PATCH ("Nice choice ".toList ++ env.randomEmoji)))
      else (R, []) := by
  have hst : startsWith req.customId START_SIM = false := by rw [hid]; rfl
  rw [handler_component env R req hty, startSimBlock_skip env _ req hst,
    componentBlock_select env R req k hid]
  split_ifs <;> simp

theorem handler_accept (env : Env) (R : Registry) (req : Request) (k : Str)
    (hty : req.type = InteractionType.MESSAGE_COMPONENT)
    (hid : req.customId = ACCEPT_BUTTON ++ k) :
    handler env R req =
      (R, sendThenRequest env (acceptResponse env k) (endpoint env req) .DELETE) := by
  have hst : startsWith req.customId START_SIM = false := by rw [hid]; rfl
  rw [handler_component env R req hty, startSimBlock_skip env _ req hst,
    componentBlock_accept env R req k hid]
  simp

theorem handler_command (env : Env) (R : Registry) (req : Request)
    (hty : req.type = InteractionType.APPLICATION_COMMAND) :
    handler env R req =
      match commandBlock R req with
      | some out => out
      | none => (R, []) := by
  have h3 : ¬ req.type = InteractionType.MESSAGE_COMPONENT := by rw [hty]; decide
  simp only [handler, if_neg (command_not_ping req hty), if_pos hty, if_neg h3]
  cases commandBlock R req <;> simp

theorem handler_sim (env : Env) (R : Registry) (req : Request)
    (hty : req.type = InteractionType.APPLICATION_COMMAND)
    (hname : req.name = "sim".toList) (hid : req.id ≠ []) :
    handler env R req =
      (R.set req.id (.challenge req.userId req.option0 false), [.send (simResponse req)]) := by
  rw [handler_command env R req hty]
  simp [commandBlock, hname, hid]

theorem handler_test (env : Env) (R : Registry) (req : Request)
    (hty : req.type = InteractionType.APPLICATION_COMMAND)
    (hname : req.name = "test".toList) :
    handler env R req = (R.set req.userId .simulation, [.send testResponse]) := by
  rw [handler_command env R req hty]
  simp [commandBlock, hname]

theorem get_set_self_any (R : Registry) (k : Str) (s : Session) :
    (R.set k s).get k = .session s := by
  by_cases hk : k = PROTO
  · subst hk
    cases ho : R.own PROTO with
    | some t => simp [Registry.get, Registry.set, ho]
    | none =>
      have h1 : Session.ownProp s PROTO = none := by
        cases s <;> simp [Session.ownProp, PROTO]
      simp [Registry.get, Registry.set, ho, Registry.inherited, h1]
  · exact get_set_self R k s hk

theorem ackedOnceFirst_sendThenRequest (env : Env) (p : Response) (e : Str) (m : Method) :
    ackedOnceFirst (sendThenRequest env p e m) = true := by
  cases h : env.requestFails <;> simp [sendThenRequest, ackedOnceFirst, responses, h]

/-- Every routed event other than a `start_sim` click is acknowledged by one
`res.send`, made before any follow-up: `PING`, the commands `test` and `sim`,
an `accept_button_` click, and a `select_choice_` click whose key reads
truthy. -/
theorem acked_once_first_unless_start_sim (env : Env) (R : Registry) (req : Request) (k : Str)
    (h : req.type = InteractionType.PING
        ∨ (req.type = InteractionType.APPLICATION_COMMAND ∧ req.name = "test".toList)
        ∨ (req.type = InteractionType.APPLICATION_COMMAND ∧ req.name = "sim".toList
            ∧ req.id ≠ [])
        ∨ (req.type = InteractionType.MESSAGE_COMPONENT ∧ req.customId = ACCEPT_BUTTON ++ k)
        ∨ (req.type = InteractionType.MESSAGE_COMPONENT ∧ req.customId = SELECT_CHOICE ++ k
            ∧ truthy (R.get k) = true)) :
    ackedOnceFirst (handler env R req).2 = true := by
  rcases h with h | ⟨h, hn⟩ | ⟨h, hn, hi⟩ | ⟨h, hc⟩ | ⟨h, hc, ht⟩
  · simp only [handler, if_pos h]
    rfl
  · rw [handler_test env R req h hn]; rfl
  · rw [handler_sim env R req h hn hi]; rfl
  · rw [handler_accept env R req k h hc]
    exact ackedOnceFirst_sendThenRequest _ _ _ _
  · rw [handler_select env R req k h hc, if_pos ht]
    exact ackedOnceFirst_sendThenRequest _ _ _ _

/-- A `start_sim` click is answered first with the buy-or-sell prompt and,
whatever the registry holds, the handler goes on past the delete follow-up:
when the user's key reads falsy the registry is unchanged and `res.send` is
called a second time with `No active simulation found.`. -/
theorem start_sim_falsy (env : Env) (R : Registry) (req : Request) (k : Str)
    (hty : req.type = InteractionType.MESSAGE_COMPONENT)
    (hid : req.customId = START_SIM ++ k)
    (hg : truthy (R.get req.userId) = false) :
    handler env R req =
      (R, sendThenRequest env (buySellResponse k) (endpoint env req) .DELETE
            ++ [.send noActiveResponse]) := by
  have ha : startsWith req.customId ACCEPT_BUTTON = false := by rw [hid]; rfl
  have hs : startsWith req.customId SELECT_CHOICE = false := by rw [hid]; rfl
  rw [handler_component env R req hty, componentBlock_skip env R req ha hs]
  simp only [startSimBlock, hid, startsWith_append, replace_append_nil, hg]
  simp

/-! ## Keys that are not resolved through the prototype chain -/

/-- For every registry in which a key `k` other than `__proto__` holds a
session `s`, a `select_choice_` ++ `k` event from user `u` with selected value
`v` is answered by exactly one message, with content
`getResult(s, {id: u, objectName: v})`, no flags and no components; afterwards
no session is held under `k` and every other key reads as before. -/
theorem select_choice_resolves_own_session (env : Env) (R : Registry) (req : Request)
    (k : Str) (s : Session)
    (hty : req.type = InteractionType.MESSAGE_COMPONENT)
    (hid : req.customId = SELECT_CHOICE ++ k)
    (hk : k ≠ PROTO)
    (hs : R.get k = .session s) :
    responses (handler env R req).2 =
        [.channelMessage
          { content :=
              env.getResult (.session s) (.session (.challenge req.userId req.value0 false))
            ephemeral := false
            components := [] }]
    ∧ (∀ t, (handler env R req).1.get k ≠ .session t)
    ∧ ∀ j, j ≠ k → (handler env R req).1.get j = R.get j := by
  have hh := handler_select env R req k hty hid
  rw [hs] at hh
  simp only [truthy, if_true] at hh
  rw [hh]
  refine ⟨responses_sendThenRequest _ _ _ _, ?_, ?_⟩
  · intro t
    show (R.delete k).get k ≠ .session t
    rw [get_delete_self]
    exact inherited_ne_session R k hk t
  · intro j hj
    exact get_delete_other R k j hj

/-- For every key `k` under which the prototype chain of the registry object
provides no truthy value, a `select_choice_` ++ `k` event is dropped when the
registry has no own entry under `k`, and when it has one, handling the same
event a second time right after the first is dropped. -/
theorem select_choice_dropped_without_inherited (env : Env) (R : Registry) (req : Request)
    (k : Str)
    (hty : req.type = InteractionType.MESSAGE_COMPONENT)
    (hid : req.customId = SELECT_CHOICE ++ k)
    (hinh : truthy (R.inherited k) = false) :
    (R.own k = none → handler env R req = (R, []))
    ∧ (∀ s, R.own k = some s →
        handler env (handler env R req).1 req = ((handler env R req).1, [])) := by
  constructor
  · intro ho
    have hg : R.get k = R.inherited k := by simp [Registry.get, ho]
    rw [handler_select env R req k hty hid, hg, hinh]
    simp
  · intro s ho
    have hg : R.get k = .session s := by simp [Registry.get, ho]
    have h1 : (handler env R req).1 = R.delete k := by
      rw [handler_select env R req k hty hid, hg]
      simp [truthy]
    rw [h1, handler_select env (R.delete k) req k hty hid, get_delete_self, hinh]
    simp

/-- For every `sim` command with a non-empty event id `i` other than
`__proto__`: afterwards `i` reads as the session `{id: u, objectName: o}`,
every other key reads as before, and the only call is one `res.send` of a
message whose only component is a row with the button `accept_button_` ++ `i`. -/
theorem sim_creates_own_session (env : Env) (R : Registry) (req : Request)
    (hty : req.type = InteractionType.APPLICATION_COMMAND)
    (hname : req.name = "sim".toList)
    (hid : req.id ≠ [])
    (hproto : req.id ≠ PROTO) :
    (handler env R req).1.get req.id = .session (.challenge req.userId req.option0 false)
    ∧ (∀ j, j ≠ req.id → (handler env R req).1.get j = R.get j)
    ∧ (handler env R req).2 = [.send (simResponse req)]
    ∧ ∃ m style label, simResponse req = .channelMessage m
        ∧ m.components = [.actionRow [.button style label (ACCEPT_BUTTON ++ req.id)]] := by
  rw [handler_sim env R req hty hname hid]
  exact ⟨get_set_self R _ _ hproto, fun j hj => get_set_other R _ j _ hproto hj, rfl,
    ⟨_, _, _, rfl, rfl⟩⟩

/-- For every `test` command from a user `u` other than `__proto__`:
afterwards `u` reads as a simulation session, every other key reads as
before, and the only call is one `res.send` of a message whose only component
is a row with the button `start_sim`. -/
theorem test_creates_own_session (env : Env) (R : Registry) (req : Request)
    (hty : req.type = InteractionType.APPLICATION_COMMAND)
    (hname : req.name = "test".toList)
    (hproto : req.userId ≠ PROTO) :
    (handler env R req).1.get req.userId = .session .simulation
    ∧ (∀ j, j ≠ req.userId → (handler env R req).1.get j = R.get j)
    ∧ (handler env R req).2 = [.send testResponse]
    ∧ ∃ m style label, testResponse = .channelMessage m
        ∧ m.components = [.actionRow [.button style label START_SIM]] := by
  rw [handler_test env R req hty hname]
  exact ⟨get_set_self R _ _ hproto, fun j hj => get_set_other R _ j _ hproto hj, rfl,
    ⟨_, _, _, rfl, rfl⟩⟩

/-- Round trip of a session key other than `__proto__`: the accept handler
extracts `k` from `accept_button_` ++ `k` and emits the select control
`select_choice_` ++ `k`, from which the select handler extracts `k`; after a
`sim` command with event id `k`, accepting through the emitted button and
selecting through the emitted select control is answered with `getResult` on
the stored session and the responder, and no session is held under `k`
afterwards. -/
theorem round_trip_own_key (env₁ env₂ env₃ : Env) (R : Registry)
    (sim acc sel : Request)
    (hk : sim.id ≠ [])
    (hproto : sim.id ≠ PROTO)
    (hsim : sim.type = InteractionType.APPLICATION_COMMAND)
    (hname : sim.name = "sim".toList)
    (hacc : acc.type = InteractionType.MESSAGE_COMPONENT)
    (haid : acc.customId = ACCEPT_BUTTON ++ sim.id)
    (hsel : sel.type = InteractionType.MESSAGE_COMPONENT)
    (hsid : sel.customId = SELECT_CHOICE ++ sim.id) :
    replace ACCEPT_BUTTON [] (ACCEPT_BUTTON ++ sim.id) = sim.id
    ∧ replace SELECT_CHOICE [] (SELECT_CHOICE ++ sim.id) = sim.id
    ∧ (∃ m style label, responses (handler env₁ R sim).2 = [.channelMessage m]
        ∧ m.components = [.actionRow [.button style label (ACCEPT_BUTTON ++ sim.id)]])
    ∧ (∃ m options, responses (handler env₂ (handler env₁ R sim).1 acc).2 = [.channelMessage m]
        ∧ m.components = [.actionRow [.stringSelect (SELECT_CHOICE ++ sim.id) options]])
    ∧ responses (handler env₃ (handler env₂ (handler env₁ R sim).1 acc).1 sel).2
        = [resultResponse
            (env₃.getResult (.session (.challenge sim.userId sim.option0 false))
              (.session (.challenge sel.userId sel.value0 false)))]
    ∧ ∀ t, (handler env₃ (handler env₂ (handler env₁ R sim).1 acc).1 sel).1.get sim.id
        ≠ .session t := by
  have h1 := handler_sim env₁ R sim hsim hname hk
  have h2 := handler_accept env₂ (handler env₁ R sim).1 acc sim.id hacc haid
  have hg : (handler env₂ (handler env₁ R sim).1 acc).1.get sim.id
      = .session (.challenge sim.userId sim.option0 false) := by
    rw [h2, h1]
    exact get_set_self_any R _ _
  have h3 := handler_select env₃ (handler env₂ (handler env₁ R sim).1 acc).1 sel sim.id hsel hsid
  rw [hg] at h3
  simp only [truthy, if_true] at h3
  refine ⟨replace_append_nil _ _, replace_append_nil _ _, ?_, ?_, ?_, ?_⟩
  · rw [h1]
    exact ⟨_, _, _, rfl, rfl⟩
  · rw [h2, responses_sendThenRequest]
    exact ⟨_, _, rfl, rfl⟩
  · rw [h3]; exact responses_sendThenRequest _ _ _ _
  · intro t
    rw [h3]
    show (Registry.delete _ sim.id).get sim.id ≠ .session t
    rw [get_delete_self]
    exact inherited_ne_session _ _ hproto t

/-! ## Claims -/

/-- C1 (code at the failing input): after a `sim` command with event id
`__proto__` the registry holds the challenger's session under `__proto__`; the
`select_choice___proto__` event is answered with the result text and the
follow-up is made, yet afterwards the registry still holds the same session
under `__proto__`, and the same event handled a second time is answered
again. -/
theorem select_choice_proto_session_remains :
    protoRegistry.get PROTO = .session (.challenge "u1".toList "rock".toList false)
    ∧ (handler exampleEnv protoRegistry protoSelectRequest).2
        = [.send exampleResultMessage,
           .discordRequest "webhooks/app/tok/messages/77".toList
             (.PATCH "Nice choice :)".toList)]
    ∧ (handler exampleEnv protoRegistry protoSelectRequest).1.get PROTO
        = .session (.challenge "u1".toList "rock".toList false)
    ∧ responses (handler exampleEnv (handler exampleEnv protoRegistry protoSelectRequest).1
        protoSelectRequest).2 = [exampleResultMessage] := by
  decide

/-- C2 (code at the failing input): in the empty registry no session was
created under `constructor`, yet the `select_choice_constructor` event is
answered with a result message and the follow-up request is made. -/
theorem select_choice_constructor_answered :
    Registry.empty.own "constructor".toList = none
    ∧ Registry.empty.get "constructor".toList = .builtin "constructor".toList
    ∧ (handler exampleEnv Registry.empty
        (componentRequest "select_choice_constructor".toList "u2".toList "scissors".toList)).2
      = [.send exampleResultMessage,
         .discordRequest "webhooks/app/tok/messages/77".toList
           (.PATCH "Nice choice :)".toList)] := by
  decide

/-- C3 (code at the failing input): for a `start_sim` click by user `u1` while
the registry is empty, the first payload passed to `res.send` is the
buy-or-sell prompt; `No active simulation found.` is only the payload of a
second `res.send`, made after the delete follow-up. -/
theorem start_sim_without_session_trace :
    truthy (Registry.empty.get startSimRequest.userId) = false
    ∧ (handler exampleEnv Registry.empty startSimRequest).2
      = [.send (buySellResponse []),
         .discordRequest "webhooks/app/tok/messages/77".toList .DELETE,
         .send noActiveResponse]
    ∧ (responses (handler exampleEnv Registry.empty startSimRequest).2).head?
      ≠ some noActiveResponse := by
  decide

/-- C4 (code at the failing input): for a `start_sim` click by user `u1` right
after the `test` command of `u1`, `res.send` is called twice, the second time
after the delete follow-up. -/
theorem start_sim_sends_twice :
    (handler exampleEnv simulationRegistry startSimRequest).2
      = [.send (buySellResponse []),
         .discordRequest "webhooks/app/tok/messages/77".toList .DELETE,
         .send startedResponse]
    ∧ (responses (handler exampleEnv simulationRegistry startSimRequest).2).length = 2
    ∧ ackedOnceFirst (handler exampleEnv simulationRegistry startSimRequest).2 = false := by
  decide

/-- C5: for every key `k`, registry and environment, an `accept_button_` ++ `k`
component event makes exactly the calls `res.send` (an ephemeral message whose
only component is a row with one string select) and then the delete
follow-up, plus the log entry when the follow-up throws; the registry is
unchanged, and the payload sent and the resulting registry are the same
whether the follow-up throws or not. -/
theorem accept_button_response (env : Env) (R : Registry) (req : Request) (k : Str)
    (hty : req.type = InteractionType.MESSAGE_COMPONENT)
    (hid : req.customId = ACCEPT_BUTTON ++ k) :
    (handler env R req).2 =
        .send (acceptResponse env k) :: .discordRequest (endpoint env req) .DELETE
          :: (if env.requestFails then [.consoleError] else [])
    ∧ responses (handler env R req).2 = [acceptResponse env k]
    ∧ (∃ m c o, acceptResponse env k = .channelMessage m ∧ m.ephemeral = true
        ∧ m.components = [.actionRow [.stringSelect c o]])
    ∧ (handler env R req).1 = R
    ∧ ∀ b : Bool,
        responses (handler { env with requestFails := b } R req).2
            = responses (handler env R req).2
        ∧ (handler { env with requestFails := b } R req).1 = (handler env R req).1 := by
  have hh := handler_accept env R req k hty hid
  refine ⟨?_, ?_, ⟨_, _, _, rfl, rfl, rfl⟩, ?_, ?_⟩
  · rw [hh]; rfl
  · rw [hh]; exact responses_sendThenRequest _ _ _ _
  · rw [hh]
  · intro b
    rw [hh, handler_accept { env with requestFails := b } R req k hty hid]
    exact ⟨by rw [responses_sendThenRequest, responses_sendThenRequest]; rfl, rfl⟩

/-- C5 (witness): the claim at the `accept_button_123` event on the empty
registry. -/
theorem accept_button_response_witness :
    (handler exampleEnv Registry.empty acceptRequest).2 =
        .send (acceptResponse exampleEnv "123".toList)
          :: .discordRequest (endpoint exampleEnv acceptRequest) .DELETE
          :: (if exampleEnv.requestFails then [.consoleError] else [])
    ∧ responses (handler exampleEnv Registry.empty acceptRequest).2
        = [acceptResponse exampleEnv "123".toList]
    ∧ (∃ m c o, acceptResponse exampleEnv "123".toList = .channelMessage m
        ∧ m.ephemeral = true ∧ m.components = [.actionRow [.stringSelect c o]])
    ∧ (handler exampleEnv Registry.empty acceptRequest).1 = Registry.empty
    ∧ ∀ b : Bool,
        responses (handler { exampleEnv with requestFails := b } Registry.empty acceptRequest).2
            = responses (handler exampleEnv Registry.empty acceptRequest).2
        ∧ (handler { exampleEnv with requestFails := b } Registry.empty acceptRequest).1
            = (handler exampleEnv Registry.empty acceptRequest).1 :=
  accept_button_response exampleEnv Registry.empty acceptRequest "123".toList rfl rfl

/-- C6 (code at the failing input): a `sim` command whose event id is
`__proto__` adds no entry to the registry and changes what other keys read:
`id` and `objectName` are absent from the empty registry and read as the user
id and the chosen object afterwards. -/
theorem sim_proto_changes_other_key :
    "id".toList ≠ "__proto__".toList
    ∧ Registry.empty.get "id".toList = .undefined
    ∧ Registry.empty.get "objectName".toList = .undefined
    ∧ (handler exampleEnv Registry.empty protoSimRequest).1.own "__proto__".toList = none
    ∧ (handler exampleEnv Registry.empty protoSimRequest).1.get "id".toList
        = .string "u1".toList
    ∧ (handler exampleEnv Registry.empty protoSimRequest).1.get "objectName".toList
        = .string "rock".toList := by
  decide

/-- C7 (code at the failing input): a `test` command from a user whose id is
`__proto__` adds no entry to the registry and changes what other keys read:
`players` and `waitingForPrice` are absent from the empty registry and read
as the new session's `players` object and `true` afterwards. -/
theorem test_proto_changes_other_key :
    "players".toList ≠ "__proto__".toList
    ∧ Registry.empty.get "players".toList = .undefined
    ∧ Registry.empty.get "waitingForPrice".toList = .undefined
    ∧ (handler exampleEnv Registry.empty
        (commandRequest "test".toList "5".toList "__proto__".toList [])).1.own
        "__proto__".toList = none
    ∧ (handler exampleEnv Registry.empty
        (commandRequest "test".toList "5".toList "__proto__".toList [])).1.get
        "players".toList = .players
    ∧ (handler exampleEnv Registry.empty
        (commandRequest "test".toList "5".toList "__proto__".toList [])).1.get
        "waitingForPrice".toList = .boolean true := by
  decide

/-- C8 (code at the failing input): for the key `__proto__` the identifiers
round-trip (the `sim` response carries the button `accept_button___proto__`,
the accept response the select control `select_choice___proto__`, and both
handlers extract `__proto__`), and the select event is answered with the
result text; yet the session stored by the `sim` command is not removed: it is
still held under `__proto__` afterwards. -/
theorem round_trip_proto_session_not_removed :
    replace ACCEPT_BUTTON [] protoAcceptRequest.customId = PROTO
    ∧ replace SELECT_CHOICE [] protoSelectRequest.customId = PROTO
    ∧ responses (handler exampleEnv Registry.empty protoSimRequest).2
        = [.channelMessage
            { content := "Rock papers scissors challenge from <@u1>".toList
              ephemeral := false
              components :=
                [.actionRow
                  [.button ButtonStyleTypes.PRIMARY "Accept".toList
                    protoAcceptRequest.customId]] }]
    ∧ responses (handler exampleEnv (handler exampleEnv Registry.empty protoSimRequest).1
        protoAcceptRequest).2
        = [.channelMessage
            { content := "What is your object of choice?".toList
              ephemeral := true
              components :=
                [.actionRow [.stringSelect protoSelectRequest.customId []]] }]
    ∧ responses (handler exampleEnv
        (handler exampleEnv (handler exampleEnv Registry.empty protoSimRequest).1
          protoAcceptRequest).1 protoSelectRequest).2 = [exampleResultMessage]
    ∧ (handler exampleEnv
        (handler exampleEnv (handler exampleEnv Registry.empty protoSimRequest).1
          protoAcceptRequest).1 protoSelectRequest).1.get PROTO
        = .session (.challenge "u1".toList "rock".toList false) := by
  decide

/-- C9: for every registry, an event whose type is none of `PING`,
`APPLICATION_COMMAND`, `MESSAGE_COMPONENT`, a command whose name is neither
`test` nor `sim` (or a `sim` command whose event id is empty), and a component
event whose custom id starts with none of `accept_button_`, `select_choice_`,
`start_sim` make no call at all and leave the registry unchanged. -/
theorem unrecognised_event_ignored (env : Env) (R : Registry) (req : Request)
    (h : (req.type ≠ InteractionType.PING ∧ req.type ≠ InteractionType.APPLICATION_COMMAND
            ∧ req.type ≠ InteractionType.MESSAGE_COMPONENT)
        ∨ (req.type = InteractionType.APPLICATION_COMMAND ∧ req.name ≠ "test".toList
            ∧ (req.name ≠ "sim".toList ∨ req.id = []))
        ∨ (req.type = InteractionType.MESSAGE_COMPONENT
            ∧ startsWith req.customId ACCEPT_BUTTON = false
            ∧ startsWith req.customId SELECT_CHOICE = false
            ∧ startsWith req.customId START_SIM = false)) :
    handler env R req = (R, []) := by
  rcases h with ⟨h1, h2, h3⟩ | ⟨hty, hn, hs⟩ | ⟨hty, ha, hs, hst⟩
  · simp only [handler, if_neg h1, if_neg h2, if_neg h3]
    rfl
  · rw [handler_command env R req hty]
    have hc : commandBlock R req = none := by
      unfold commandBlock
      rw [if_neg hn, if_neg]
      rintro ⟨a, b⟩
      rcases hs with hs | hs
      · exact hs a
      · exact b hs
    rw [hc]
  · rw [handler_component env R req hty, componentBlock_skip env R req ha hs,
      startSimBlock_skip env R req hst]
    rfl

/-- C9 (witness): an event of type 5, the command `other`, a `sim` command with
an empty event id and a component event with custom id `buy_1` are ignored. -/
theorem unrecognised_event_ignored_witness :
    handler exampleEnv challengeRegistry
        { commandRequest "sim".toList "9".toList "u1".toList [] with type := 5 }
        = (challengeRegistry, [])
    ∧ handler exampleEnv challengeRegistry
        (commandRequest "other".toList "9".toList "u1".toList []) = (challengeRegistry, [])
    ∧ handler exampleEnv challengeRegistry
        (commandRequest "sim".toList [] "u1".toList "rock".toList) = (challengeRegistry, [])
    ∧ handler exampleEnv challengeRegistry
        (componentRequest "buy_1".toList "u1".toList []) = (challengeRegistry, []) :=
  ⟨unrecognised_event_ignored exampleEnv challengeRegistry _
      (Or.inl ⟨by decide, by decide, by decide⟩),
    unrecognised_event_ignored exampleEnv challengeRegistry _
      (Or.inr (Or.inl ⟨rfl, by decide, Or.inl (by decide)⟩)),
    unrecognised_event_ignored exampleEnv challengeRegistry _
      (Or.inr (Or.inl ⟨rfl, by decide, Or.inr rfl⟩)),
    unrecognised_event_ignored exampleEnv challengeRegistry _
      (Or.inr (Or.inr ⟨rfl, by decide, by decide, by decide⟩))⟩

/-- C10: for every component identifier `c` at most one of the three tests of
the dispatcher (starts with `accept_button_`, `select_choice_`, `start_sim`)
holds, and for every event carrying `c` at most one of the handler's two
component blocks makes a call or touches the registry. -/
theorem dispatch_tests_exclusive (c : Str) :
    (startsWith c ACCEPT_BUTTON && startsWith c SELECT_CHOICE) = false
    ∧ (startsWith c ACCEPT_BUTTON && startsWith c START_SIM) = false
    ∧ (startsWith c SELECT_CHOICE && startsWith c START_SIM) = false
    ∧ ∀ (env : Env) (R : Registry) (req : Request),
        componentBlock env R { req with customId := c } = (R, [])
        ∨ ∀ R', startSimBlock env R' { req with customId := c } = (R', []) := by
  have hA : startsWith c ACCEPT_BUTTON = true →
      startsWith c SELECT_CHOICE = false ∧ startsWith c START_SIM = false := by
    intro h
    obtain ⟨t, rfl⟩ := (startsWith_iff _ _).1 h
    exact ⟨rfl, rfl⟩
  have hS : startsWith c SELECT_CHOICE = true → startsWith c START_SIM = false := by
    intro h
    obtain ⟨t, rfl⟩ := (startsWith_iff _ _).1 h
    rfl
  refine ⟨?_, ?_, ?_, ?_⟩
  · cases h : startsWith c ACCEPT_BUTTON
    · rfl
    · rw [(hA h).1]; rfl
  · cases h : startsWith c ACCEPT_BUTTON
    · rfl
    · rw [(hA h).2]; rfl
  · cases h : startsWith c SELECT_CHOICE
    · rfl
    · rw [hS h]; rfl
  · intro env R req
    cases ha : startsWith c ACCEPT_BUTTON
    · cases hs : startsWith c SELECT_CHOICE
      · exact Or.inl (componentBlock_skip env R _ ha hs)
      · exact Or.inr (fun R' => startSimBlock_skip env R' _ (hS hs))
    · exact Or.inr (fun R' => startSimBlock_skip env R' _ (hA ha).2)

end TradeSimBot
